import Mathlib

/-! Shallow embedding of the CSC3916_Assignment3 movie API.

The definitions below are translated from `src/server.js` (the Express route
handlers), `src/Movies.js` (the mongoose movie schema) and, where the
repository code is not available under `src/` (the `auth_jwt` middleware and
the `jsonwebtoken` library), from the specification, as marked in the doc
comments.  JavaScript truthiness of the payload fields is modelled
explicitly: a number is truthy when present and nonzero, a string when
present and nonempty, an array whenever present. -/

set_option autoImplicit false

namespace MovieAPI

/-- One credited actor entry of a movie record (`src/Movies.js`, `actors`
subdocument with `actorName` and `characterName`). -/
structure Actor where
  actorName : String
  characterName : String
  deriving DecidableEq, Repr

/-- A stored movie record (`src/Movies.js` schema): `title` is required,
`releaseDate` and `genre` are optional, `actors` is a list of subdocuments. -/
structure Movie where
  title : String
  releaseDate : Option Int := none
  genre : Option String := none
  actors : List Actor := []
  deriving DecidableEq, Repr

/-- A stored user record (`src/Users.js` is not under `src/`; the fields are
those used by `src/server.js`: `name`, `username`, `password`). -/
structure User where
  name : Option String := none
  username : String
  password : String
  deriving DecidableEq, Repr

/-- The observable part of an HTTP response: the status code together with the
JSON body fields the handlers of `src/server.js` produce (`success`,
`message`/`msg`, and the optional payload fields). -/
structure Response where
  status : Nat
  success : Bool
  message : Option String := none
  movie : Option Movie := none
  movies : Option (List Movie) := none
  deletedCount : Option Nat := none
  deriving DecidableEq, Repr

/-- JavaScript truthiness of an optional number field: `undefined`, `null` and
`0` are falsy. -/
def truthyNum : Option Int → Bool
  | none => false
  | some n => n != 0

/-- JavaScript truthiness of an optional string field: `undefined`, `null` and
the empty string are falsy. -/
def truthyStr : Option String → Bool
  | none => false
  | some s => s != ""

/-- JavaScript truthiness of an optional array field: every array object is
truthy (also the empty array); only absence is falsy. -/
def truthyList {α : Type} : Option (List α) → Bool
  | none => false
  | some _ => true

/-- The ten-value genre enumeration, as listed in `src/server.js` lines
134-137 (and equally in the `enum` of `src/Movies.js`). -/
def validGenres : List String :=
  ["Action", "Adventure", "Comedy", "Drama", "Fantasy", "Horror",
   "Mystery", "Thriller", "Western", "Science Fiction"]

/-- The body of a PUT `/movies/:title` request (`updateData` in
`src/server.js`): each relevant field may be absent. -/
structure UpdateData where
  releaseDate : Option Int := none
  genre : Option String := none
  actors : Option (List Actor) := none
  deriving DecidableEq, Repr

/-- `!updateData.releaseDate && !updateData.genre && !updateData.actors`
(`src/server.js` line 125): the update touches no updatable field. -/
def nothingToUpdate (u : UpdateData) : Bool :=
  !truthyNum u.releaseDate && !truthyStr u.genre && !truthyList u.actors

/-- `updateData.releaseDate && (updateData.releaseDate < 1900 ||
updateData.releaseDate > 2100)` (`src/server.js` line 130). -/
def badReleaseDate (u : UpdateData) : Bool :=
  truthyNum u.releaseDate &&
    (decide (u.releaseDate.getD 0 < 1900) || decide (u.releaseDate.getD 0 > 2100))

/-- `updateData.genre && !validGenres.includes(updateData.genre)`
(`src/server.js` line 138). -/
def badGenre (u : UpdateData) : Bool :=
  truthyStr u.genre && !(validGenres.contains (u.genre.getD ""))

/-- `updateData.actors && updateData.actors.length < 3` (`src/server.js`
line 143). -/
def badActors (u : UpdateData) : Bool :=
  truthyList u.actors && decide ((u.actors.getD []).length < 3)

/-- The chain of early-return validation checks of the PUT handler
(`src/server.js` lines 124-146), in source order; `some r` is the 400
response returned before any persistence call, `none` means validation
passed. -/
def validatePut (u : UpdateData) : Option Response :=
  if nothingToUpdate u then
    some { status := 400, success := false,
           message := some "Provide at least one field to update." }
  else if badReleaseDate u then
    some { status := 400, success := false,
           message := some "Release year must be between 1900 and 2100." }
  else if badGenre u then
    some { status := 400, success := false,
           message := some "Invalid genre, please try again." }
  else if badActors u then
    some { status := 400, success := false,
           message := some "A movie must have at least 3 actors." }
  else none

/-- Mongoose `$set` semantics of `findOneAndUpdate` with a plain update
object: every field present in `updateData` overwrites the stored field
(validators are not run on update). -/
def applyUpdate (m : Movie) (u : UpdateData) : Movie :=
  { title := m.title,
    releaseDate := match u.releaseDate with
      | some y => some y
      | none => m.releaseDate,
    genre := match u.genre with
      | some g => some g
      | none => m.genre,
    actors := match u.actors with
      | some a => a
      | none => m.actors }

/-- `Movie.findOneAndUpdate({ title }, updateData, { new: true })`: updates
the first record whose title matches and returns the updated record, or
returns `none` leaving the store unchanged. -/
def findOneAndUpdate (s : List Movie) (t : String) (u : UpdateData) :
    Option Movie × List Movie :=
  match s with
  | [] => (none, [])
  | m :: rest =>
    if m.title = t then (some (applyUpdate m u), applyUpdate m u :: rest)
    else
      let p := findOneAndUpdate rest t u
      (p.1, m :: p.2)

/-- `Movie.deleteOne({ title })`: removes the first record whose title
matches and reports the number of deleted records (`deletedCount`). -/
def deleteOne (s : List Movie) (t : String) : Nat × List Movie :=
  match s with
  | [] => (0, [])
  | m :: rest =>
    if m.title = t then (1, rest)
    else
      let p := deleteOne rest t
      (p.1, m :: p.2)

/-- The body of a POST `/movies` request (`req.body` cast by
`new Movie(req.body)`): any of the schema fields may be absent. -/
structure MovieBody where
  title : Option String := none
  releaseDate : Option Int := none
  genre : Option String := none
  actors : List Actor := []
  deriving DecidableEq, Repr

/-- Mongoose document validation run by `movie.save()` against the
`src/Movies.js` schema: `title` is required (a string fails `required` when
empty), `releaseDate` when present must satisfy `min: 1900, max: 2100`,
`genre` when present must belong to the `enum`. -/
def mongooseValidateMovie (b : MovieBody) : Bool :=
  (match b.title with
   | none => false
   | some t => t != "") &&
  (match b.releaseDate with
   | none => true
   | some y => decide (1900 ≤ y) && decide (y ≤ 2100)) &&
  (match b.genre with
   | none => true
   | some g => validGenres.contains g)

/-- GET `/movies` handler (`src/server.js` lines 99-106); `dbOk = false`
models the persistence layer throwing, caught and mapped to 500. -/
def getMoviesHandler (dbOk : Bool) (s : List Movie) : Response × List Movie :=
  if dbOk then
    ({ status := 200, success := true, movies := some s }, s)
  else
    ({ status := 500, success := false, message := some "GET request failed" }, s)

/-- POST `/movies` handler (`src/server.js` lines 107-115): the body is
given to `movie.save()` with no prior validation; every error thrown by
`save` (schema validation failures included) is caught and mapped to 500. -/
def postMoviesHandler (b : MovieBody) (dbOk : Bool) (s : List Movie) :
    Response × List Movie :=
  if dbOk && mongooseValidateMovie b then
    let m : Movie := { title := b.title.getD "", releaseDate := b.releaseDate,
                       genre := b.genre, actors := b.actors }
    ({ status := 201, success := true, message := some "Movie added successfully",
       movie := some m }, s ++ [m])
  else
    ({ status := 500, success := false, message := some "POST request failed" }, s)

/-- PUT `/movies/:title` handler (`src/server.js` lines 118-160): the
validation chain runs first and returns 400 before any persistence call;
only then is `findOneAndUpdate` invoked, with absence mapped to 404. -/
def putMoviesHandler (t : String) (u : UpdateData) (dbOk : Bool)
    (s : List Movie) : Response × List Movie :=
  match validatePut u with
  | some r => (r, s)
  | none =>
    if dbOk then
      match findOneAndUpdate s t u with
      | (none, s') => ({ status := 404, success := false,
                         message := some "Movie not found." }, s')
      | (some m, s') => ({ status := 200, success := true,
                           message := some "Movie updated successfully.",
                           movie := some m }, s')
    else
      ({ status := 500, success := false, message := some "Server error" }, s)

/-- GET `/movies/:title` handler (`src/server.js` lines 161-169). -/
def getMovieHandler (t : String) (dbOk : Bool) (s : List Movie) :
    Response × List Movie :=
  if dbOk then
    match s.find? fun m => m.title = t with
    | none => ({ status := 404, success := false,
                 message := some "Movie not found" }, s)
    | some m => ({ status := 200, success := true, movie := some m }, s)
  else
    ({ status := 500, success := false, message := some "Server error" }, s)

/-- DELETE `/movies/:title` handler (`src/server.js` lines 170-177): the
result of `deleteOne` is returned with status 200 and `success: true`
whether or not a record matched. -/
def deleteMovieHandler (t : String) (dbOk : Bool) (s : List Movie) :
    Response × List Movie :=
  if dbOk then
    let p := deleteOne s t
    ({ status := 200, success := true, message := some "Movie deleted",
       deletedCount := some p.1 }, p.2)
  else
    ({ status := 500, success := false, message := some "Server error" }, s)

/-- The body of a POST `/signup` request: every field may be absent. -/
structure SignupBody where
  name : Option String := none
  username : Option String := none
  password : Option String := none
  deriving DecidableEq, Repr

/-- Modelled from the spec: the unique-username constraint of the credential
store lives in `src/Users.js`, which is not under `src/`; per the data-model
section, username uniqueness is enforced by the store and a violation
surfaces as the duplicate-key (11000) error the signup handler maps to 409. -/
def usernameTaken (us : List User) (uname : String) : Bool :=
  us.any fun u => u.username = uname

/-- POST `/signup` handler (`src/server.js` lines 49-72): missing (falsy)
username or password maps to 400, a duplicate-key error from `save` to 409,
any other persistence error to 500, success to 201. -/
def signupHandler (b : SignupBody) (dbOk : Bool) (us : List User) :
    Response × List User :=
  if !truthyStr b.username || !truthyStr b.password then
    ({ status := 400, success := false,
       message := some "Please include both username and password." }, us)
  else if !dbOk then
    ({ status := 500, success := false, message := some "Server error." }, us)
  else if usernameTaken us (b.username.getD "") then
    ({ status := 409, success := false, message := some "User already exists." }, us)
  else
    ({ status := 201, success := true, message := some "User created successfully." },
      us ++ [{ name := b.name, username := b.username.getD "",
               password := b.password.getD "" }])

/-- The body of a POST `/signin` request as used by the handler. -/
structure SigninBody where
  username : String
  password : String
  deriving DecidableEq, Repr

/-- Modelled from the spec: `comparePassword` is defined in `src/Users.js`,
which is not under `src/`; the spec treats the hashing primitive as an
external collaborator, so the comparison is modelled as a match test against
the stored credential. -/
def comparePassword (u : User) (pw : String) : Bool :=
  u.password = pw

/-- POST `/signin` handler (`src/server.js` lines 74-95): unknown username or
wrong password map to 401, persistence errors to 500, success to a default
200 `res.json` carrying the token. -/
def signinHandler (b : SigninBody) (dbOk : Bool) (us : List User) : Response :=
  if !dbOk then
    { status := 500, success := false, message := some "Server error" }
  else
    match us.find? fun u => u.username = b.username with
    | none => { status := 401, success := false, message := some "User not found." }
    | some u =>
      if comparePassword u b.password then
        { status := 200, success := true }
      else
        { status := 401, success := false, message := some "Incorrect password." }

/-- An identity claim set `{ id, username }` as signed into a token by the
signin handler (`src/server.js` line 85). -/
structure Identity where
  id : String
  username : String
  deriving DecidableEq, Repr

/-- A signed bearer token: the embedded identity claims, the absolute
expiration timestamp `exp` (seconds), and the signature, modelled as the
secret the token was signed with. -/
structure SignedToken where
  id : String
  username : String
  exp : Int
  sig : String
  deriving DecidableEq, Repr

/-- Modelled from the spec: `jwt.sign(userToken, SECRET_KEY, { expiresIn:
"1h" })` comes from the external `jsonwebtoken` library; per the Token
Service contract, `issue` embeds the identity claims and an absolute
expiration of issuance time + 1 hour (3600 seconds). -/
def jwtSign (idn : Identity) (secret : String) (now : Int) : SignedToken :=
  { id := idn.id, username := idn.username, exp := now + 3600, sig := secret }

/-- Modelled from the spec: `jwt.verify` comes from the external
`jsonwebtoken` library; per the Token Service contract, verification fails
when the signature does not match or the current time exceeds the embedded
expiration, and otherwise returns the embedded identity claims. -/
def jwtVerify (tok : SignedToken) (secret : String) (now : Int) : Option Identity :=
  if tok.sig = secret ∧ now ≤ tok.exp then
    some { id := tok.id, username := tok.username }
  else
    none

/-- The authorization header carries a valid bearer token: one is present and
`jwtVerify` accepts it at the current time. -/
def hasValidToken (auth : Option SignedToken) (secret : String) (now : Int) : Bool :=
  match auth with
  | none => false
  | some tok => (jwtVerify tok secret now).isSome

/-- Modelled from the spec: `authJwtController.isAuthenticated` lives in
`src/auth_jwt.js`, which is not under `src/`; per the Authentication
Middleware contract, a missing or unverifiable bearer token is rejected with
401 without invoking the downstream handler, and a valid one lets the
handler run. -/
def isAuthenticated (auth : Option SignedToken) (secret : String) (now : Int)
    (handler : List Movie → Response × List Movie) (s : List Movie) :
    Response × List Movie :=
  match auth with
  | none => ({ status := 401, success := false,
               message := some "Unauthorized." }, s)
  | some tok =>
    match jwtVerify tok secret now with
    | none => ({ status := 401, success := false,
                 message := some "Unauthorized." }, s)
    | some _ => handler s

/-- A request to one of the five movie endpoints of `src/server.js`. -/
inductive MovieRequest where
  | getAll
  | post (body : MovieBody)
  | getOne (title : String)
  | put (title : String) (updateData : UpdateData)
  | del (title : String)
  deriving DecidableEq, Repr

/-- The movie routes of `src/server.js` (lines 98-177): every one of the five
endpoints is gated by `authJwtController.isAuthenticated` before its handler
runs. -/
def movieRoute (req : MovieRequest) (auth : Option SignedToken) (secret : String)
    (now : Int) (dbOk : Bool) (s : List Movie) : Response × List Movie :=
  isAuthenticated auth secret now
    (fun st =>
      match req with
      | .getAll => getMoviesHandler dbOk st
      | .post b => postMoviesHandler b dbOk st
      | .getOne t => getMovieHandler t dbOk st
      | .put t u => putMoviesHandler t u dbOk st
      | .del t => deleteMovieHandler t dbOk st) s

/-- A concrete stored movie used by the concrete-input theorems below. -/
def inception : Movie :=
  { title := "Inception", releaseDate := some 2010, genre := some "Science Fiction",
    actors := [{ actorName := "Leonardo DiCaprio", characterName := "Cobb" },
               { actorName := "Joseph Gordon-Levitt", characterName := "Arthur" },
               { actorName := "Elliot Page", characterName := "Ariadne" }] }

/-! Helper lemmas shared by the claim theorems. -/

theorem putMoviesHandler_of_validate (t : String) (u : UpdateData) (dbOk : Bool)
    (s : List Movie) (r : Response) (h : validatePut u = some r) :
    putMoviesHandler t u dbOk s = (r, s) := by
  simp [putMoviesHandler, h]

theorem validatePut_shape (u : UpdateData) (r : Response)
    (h : validatePut u = some r) : r.status = 400 ∧ r.success = false := by
  unfold validatePut at h
  repeat' split at h
  all_goals simp_all
  all_goals subst h
  all_goals exact ⟨rfl, rfl⟩

theorem validatePut_400_of_bad (u : UpdateData) (hn : nothingToUpdate u = false)
    (hb : (badReleaseDate u || (badGenre u || badActors u)) = true) :
    ∃ r, validatePut u = some r ∧ r.status = 400 := by
  by_cases h1 : badReleaseDate u = true
  · refine ⟨{ status := 400, success := false,
              message := some "Release year must be between 1900 and 2100." }, ?_, rfl⟩
    simp [validatePut, hn, h1]
  · by_cases h2 : badGenre u = true
    · refine ⟨{ status := 400, success := false,
                message := some "Invalid genre, please try again." }, ?_, rfl⟩
      simp [validatePut, hn, h1, h2]
    · simp only [Bool.not_eq_true] at h1 h2
      simp only [h1, h2, Bool.false_or] at hb
      refine ⟨{ status := 400, success := false,
                message := some "A movie must have at least 3 actors." }, ?_, rfl⟩
      simp [validatePut, hn, h1, h2, hb]

/-! The claim theorems. -/

/-- Claim C1, counterexample: the claim quantifies over every supplied genre
string, but the payload `{ releaseDate: 2000, genre: "" }` supplies the
genre string `""`, which matches none of the ten enumerated values, and the
PUT handler nevertheless does not fail with 400: the empty string is falsy
in JavaScript, the genre check is skipped, and the update is persisted with
status 200. -/
theorem c1_counterexample :
    validGenres.contains "" = false ∧
    (putMoviesHandler "Inception" { releaseDate := some 2000, genre := some "" }
        true [inception]).1.status = 200 :=
  ⟨rfl, rfl⟩

/-- Claim C1 (amended to nonempty genre strings): for every movie-update
payload that supplies a nonempty genre string g, the genre check rejects g
exactly when g is not a case-exact member of the ten-value enumeration, and
for such g the handler responds 400 with the store unchanged, before any
persistence call; an empty genre string is falsy and skips genre
validation. -/
theorem c1_genre_validation (t : String) (u : UpdateData) (dbOk : Bool)
    (s : List Movie) (g : String) (hg : u.genre = some g) (hne : g ≠ "") :
    (badGenre u = !validGenres.contains g) ∧
    (validGenres.contains g = false →
      (putMoviesHandler t u dbOk s).1.status = 400 ∧
      (putMoviesHandler t u dbOk s).2 = s) := by
  have hts : truthyStr u.genre = true := by simp [truthyStr, hg, hne]
  have hbg : badGenre u = !validGenres.contains g := by
    simp [badGenre, truthyStr, hg, hne]
  refine ⟨hbg, fun hc => ?_⟩
  have hn : nothingToUpdate u = false := by
    simp [nothingToUpdate, hts]
  have hbad : (badReleaseDate u || (badGenre u || badActors u)) = true := by
    rw [hbg, hc]
    simp
  obtain ⟨r, hr, hr400⟩ := validatePut_400_of_bad u hn hbad
  rw [putMoviesHandler_of_validate t u dbOk s r hr]
  exact ⟨hr400, rfl⟩

/-- Witness for the amended claim C1 at the concrete genre `"comedy"`
(wrong case, hence not a case-exact match). -/
theorem c1_witness :
    (putMoviesHandler "Inception" { genre := some "comedy" } true
        [inception]).1.status = 400 ∧
    (putMoviesHandler "Inception" { genre := some "comedy" } true
        [inception]).2 = [inception] :=
  (c1_genre_validation "Inception" { genre := some "comedy" } true [inception]
    "comedy" rfl (by decide)).2 rfl

/-- Claim C2, counterexample: the claim quantifies over every supplied
integer releaseDate, but the payload `{ releaseDate: 0, genre: "Drama" }`
supplies the out-of-range year 0 and the PUT handler does not fail with
400: the number 0 is falsy in JavaScript, the range check is skipped, and
the update is persisted with status 200. -/
theorem c2_counterexample :
    ((0 : Int) < 1900 ∨ (0 : Int) > 2100) ∧
    (putMoviesHandler "Inception" { releaseDate := some 0, genre := some "Drama" }
        true [inception]).1.status = 200 :=
  ⟨Or.inl (by decide), rfl⟩

/-- Claim C2 (amended to nonzero years): for every nonzero integer y supplied
as releaseDate, the range check rejects y exactly when y < 1900 or
y > 2100, and for such out-of-range y the handler responds 400 carrying the
human-readable bound message, with the store unchanged; the year 0 is falsy
and skips the range check. -/
theorem c2_release_validation (t : String) (u : UpdateData) (dbOk : Bool)
    (s : List Movie) (y : Int) (hy : u.releaseDate = some y) (hnz : y ≠ 0) :
    (badReleaseDate u = (decide (y < 1900) || decide (y > 2100))) ∧
    ((y < 1900 ∨ y > 2100) →
      putMoviesHandler t u dbOk s =
        ({ status := 400, success := false,
           message := some "Release year must be between 1900 and 2100." }, s)) := by
  have htn : truthyNum u.releaseDate = true := by simp [truthyNum, hy, hnz]
  have hbr : badReleaseDate u = (decide (y < 1900) || decide (y > 2100)) := by
    simp [badReleaseDate, truthyNum, hy, hnz]
  refine ⟨hbr, fun hrange => ?_⟩
  have hn : nothingToUpdate u = false := by simp [nothingToUpdate, htn]
  have hb : badReleaseDate u = true := by
    rcases hrange with h | h <;> simp [hbr, h]
  simp [putMoviesHandler, validatePut, hn, hb]

/-- Witness for the amended claim C2 at the concrete year 1800. -/
theorem c2_witness :
    putMoviesHandler "Inception" { releaseDate := some 1800 } true [inception] =
      ({ status := 400, success := false,
         message := some "Release year must be between 1900 and 2100." },
       [inception]) :=
  (c2_release_validation "Inception" { releaseDate := some 1800 } true [inception]
    1800 rfl (by decide)).2 (Or.inl (by decide))

/-- Claim C3: for every update payload whose actors field is an array of
length k, the actors check rejects exactly when k < 3 (every array,
including the empty one, is truthy, so the check always runs), and a
payload with fewer than 3 actors is answered 400 with the store
unchanged. -/
theorem c3_actors_min_three (t : String) (u : UpdateData) (dbOk : Bool)
    (s : List Movie) (a : List Actor) (ha : u.actors = some a) :
    (badActors u = decide (a.length < 3)) ∧
    (a.length < 3 →
      (putMoviesHandler t u dbOk s).1.status = 400 ∧
      (putMoviesHandler t u dbOk s).2 = s) := by
  have hb : badActors u = decide (a.length < 3) := by
    simp [badActors, truthyList, ha]
  refine ⟨hb, fun hlen => ?_⟩
  have hn : nothingToUpdate u = false := by
    simp [nothingToUpdate, truthyList, ha]
  have hbad : (badReleaseDate u || (badGenre u || badActors u)) = true := by
    simp [hb, hlen]
  obtain ⟨r, hr, hr400⟩ := validatePut_400_of_bad u hn hbad
  rw [putMoviesHandler_of_validate t u dbOk s r hr]
  exact ⟨hr400, rfl⟩

/-- Witness for claim C3 at the concrete two-element actors array. -/
theorem c3_witness :
    (putMoviesHandler "Inception"
        { actors := some [{ actorName := "A", characterName := "B" },
                          { actorName := "C", characterName := "D" }] } true
        [inception]).1.status = 400 ∧
    (putMoviesHandler "Inception"
        { actors := some [{ actorName := "A", characterName := "B" },
                          { actorName := "C", characterName := "D" }] } true
        [inception]).2 = [inception] :=
  (c3_actors_min_three "Inception"
    { actors := some [{ actorName := "A", characterName := "B" },
                      { actorName := "C", characterName := "D" }] } true
    [inception]
    [{ actorName := "A", characterName := "B" },
     { actorName := "C", characterName := "D" }] rfl).2 (by decide)

/-- Claim C5: every PUT /movies/:title request whose payload fails one of
the validation rules is answered with that 400 response and the store is
returned unchanged — the validation chain returns before `findOneAndUpdate`
is ever invoked. -/
theorem c5_put_validation_atomic (t : String) (u : UpdateData) (dbOk : Bool)
    (s : List Movie) (r : Response) (h : validatePut u = some r) :
    putMoviesHandler t u dbOk s = (r, s) ∧ r.status = 400 :=
  ⟨putMoviesHandler_of_validate t u dbOk s r h, (validatePut_shape u r h).1⟩

/-- Witness for claim C5 at the concrete invalid genre "Not-A-Genre". -/
theorem c5_witness :
    putMoviesHandler "Inception" { genre := some "Not-A-Genre" } true [inception] =
      ({ status := 400, success := false,
         message := some "Invalid genre, please try again." }, [inception]) ∧
    Response.status { status := 400, success := false,
                      message := some "Invalid genre, please try again." } = 400 :=
  c5_put_validation_atomic "Inception" { genre := some "Not-A-Genre" } true
    [inception]
    { status := 400, success := false,
      message := some "Invalid genre, please try again." } rfl

/-- Claim C8: a PUT payload containing none of releaseDate, genre and actors
is answered 400 ("Provide at least one field to update.") with the store
unchanged, before any repository call. -/
theorem c8_nothing_to_update (t : String) (dbOk : Bool) (s : List Movie)
    (u : UpdateData) (h1 : u.releaseDate = none) (h2 : u.genre = none)
    (h3 : u.actors = none) :
    putMoviesHandler t u dbOk s =
      ({ status := 400, success := false,
         message := some "Provide at least one field to update." }, s) := by
  have hn : nothingToUpdate u = true := by
    simp [nothingToUpdate, truthyNum, truthyStr, truthyList, h1, h2, h3]
  simp [putMoviesHandler, validatePut, hn]

/-- Witness for claim C8 at the empty update payload. -/
theorem c8_witness :
    putMoviesHandler "Inception" {} true [inception] =
      ({ status := 400, success := false,
         message := some "Provide at least one field to update." }, [inception]) :=
  c8_nothing_to_update "Inception" true [inception] {} rfl rfl rfl

/-- Claim C4, counterexample: the POST /movies handler performs no payload
validation of its own; a payload missing the required title (a domain-rule
violation) is rejected only by `movie.save()`, whose error the catch block
maps to status 500, not 400. -/
theorem c4_counterexample :
    mongooseValidateMovie { releaseDate := some 2000, genre := some "Drama" } = false ∧
    (postMoviesHandler { releaseDate := some 2000, genre := some "Drama" }
        true []).1.status = 500 :=
  ⟨rfl, rfl⟩

/-- Claim C4 (amended): for every authenticated POST /movies request whose
payload violates a domain rule of the schema (missing required title, genre
outside the ten-value enumeration, out-of-range releaseDate), the handler
responds with status 500 ("POST request failed"), leaving the store
unchanged — no 400 path exists on the create route. -/
theorem c4_invalid_create_maps_to_500 (b : MovieBody) (dbOk : Bool)
    (s : List Movie) (h : mongooseValidateMovie b = false) :
    postMoviesHandler b dbOk s =
      ({ status := 500, success := false,
         message := some "POST request failed" }, s) := by
  simp [postMoviesHandler, h]

/-- Witness for the amended claim C4 at a payload with an invalid genre. -/
theorem c4_witness :
    postMoviesHandler { title := some "X", genre := some "Not-A-Genre" } true [] =
      ({ status := 500, success := false,
         message := some "POST request failed" }, []) :=
  c4_invalid_create_maps_to_500 { title := some "X", genre := some "Not-A-Genre" }
    true [] rfl

/-- `deleteOne` on a store holding no record of the given title deletes
nothing and leaves the store unchanged. -/
theorem deleteOne_of_not_mem (t : String) (s : List Movie)
    (h : ∀ m ∈ s, m.title ≠ t) : deleteOne s t = (0, s) := by
  induction s with
  | nil => rfl
  | cons m rest ih =>
    have hm : m.title ≠ t := h m (List.mem_cons_self m rest)
    have hr := ih fun x hx => h x (List.mem_cons_of_mem m hx)
    simp [deleteOne, hm, hr]

/-- Claim C6: a DELETE /movies/:title request for a title with no matching
record responds 200 with `success: true` and `deletedCount: 0` — a no-op,
not an error — and leaves the store unchanged; consequently a second DELETE
of the same title is again answered with a non-error 200 response. -/
theorem c6_delete_retry_safe (t : String) (s : List Movie)
    (h : ∀ m ∈ s, m.title ≠ t) :
    deleteMovieHandler t true s =
      ({ status := 200, success := true, message := some "Movie deleted",
         deletedCount := some 0 }, s) ∧
    ((deleteMovieHandler t true (deleteMovieHandler t true s).2).1.status = 200 ∧
     (deleteMovieHandler t true (deleteMovieHandler t true s).2).1.success = true) := by
  constructor
  · simp [deleteMovieHandler, deleteOne_of_not_mem t s h]
  · simp [deleteMovieHandler]

/-- Witness for claim C6 at a store not containing the deleted title. -/
theorem c6_witness :
    deleteMovieHandler "Ghost" true [inception] =
      ({ status := 200, success := true, message := some "Movie deleted",
         deletedCount := some 0 }, [inception]) ∧
    ((deleteMovieHandler "Ghost" true
        (deleteMovieHandler "Ghost" true [inception]).2).1.status = 200 ∧
     (deleteMovieHandler "Ghost" true
        (deleteMovieHandler "Ghost" true [inception]).2).1.success = true) :=
  c6_delete_retry_safe "Ghost" [inception] (by decide)

/-- Claim C7: every request to one of the five movie endpoints that does not
carry a valid bearer token (either the authorization header is absent or
its token fails verification) is answered 401 with the store unchanged —
the downstream handler is never invoked, so no record is created or
modified. -/
theorem c7_auth_gate (req : MovieRequest) (auth : Option SignedToken)
    (secret : String) (now : Int) (dbOk : Bool) (s : List Movie)
    (h : hasValidToken auth secret now = false) :
    movieRoute req auth secret now dbOk s =
      ({ status := 401, success := false, message := some "Unauthorized." }, s) := by
  cases auth with
  | none => simp [movieRoute, isAuthenticated]
  | some tok =>
    have hv : jwtVerify tok secret now = none := by
      cases hj : jwtVerify tok secret now with
      | none => rfl
      | some i => simp [hasValidToken, hj] at h
    simp [movieRoute, isAuthenticated, hv]

/-- Witness for claim C7: a POST /movies request without an authorization
header is rejected 401 and the store keeps its single record. -/
theorem c7_witness :
    movieRoute (MovieRequest.post { title := some "Dune" }) none "secret" 0
        true [inception] =
      ({ status := 401, success := false, message := some "Unauthorized." },
       [inception]) :=
  c7_auth_gate (MovieRequest.post { title := some "Dune" }) none "secret" 0
    true [inception] rfl

/-- Claim C9: a token issued at time t embeds the absolute expiration
t + 3600 seconds (one hour); verification with the right secret accepts the
token at every time up to t + 3540 s (t + 59 min) and rejects it at
t + 3660 s (t + 61 min). -/
theorem c9_token_lifetime (idn : Identity) (secret : String) (t now : Int)
    (h : now ≤ t + 3540) :
    (jwtSign idn secret t).exp = t + 3600 ∧
    jwtVerify (jwtSign idn secret t) secret now = some idn ∧
    jwtVerify (jwtSign idn secret t) secret (t + 3660) = none := by
  refine ⟨rfl, ?_, ?_⟩
  · have hle : now ≤ t + 3600 := by linarith
    simp [jwtVerify, jwtSign, hle]
  · have hgt : ¬ (t + 3660 ≤ t + 3600) := by linarith
    simp [jwtVerify, jwtSign, hgt]

/-- Witness for claim C9 at a concrete identity issued at time 0. -/
theorem c9_witness :
    (jwtSign { id := "1", username := "ann" } "secret" 0).exp = 0 + 3600 ∧
    jwtVerify (jwtSign { id := "1", username := "ann" } "secret" 0) "secret" 3540 =
      some { id := "1", username := "ann" } ∧
    jwtVerify (jwtSign { id := "1", username := "ann" } "secret" 0) "secret"
        (0 + 3660) = none :=
  c9_token_lifetime { id := "1", username := "ann" } "secret" 0 3540 (by decide)

/-- A response's `success` flag agrees with its HTTP status: the flag is
true exactly when the status is in the 2xx range. -/
def successMatchesStatus (r : Response) : Prop :=
  r.success = true ↔ (200 ≤ r.status ∧ r.status < 300)

/-- Claim C10: every response produced by the signup, signin and movie-route
handlers carries a boolean `success` field that is true exactly when the
HTTP status code is in the 2xx range. -/
theorem c10_success_iff_2xx :
    (∀ b dbOk us, successMatchesStatus (signupHandler b dbOk us).1) ∧
    (∀ b dbOk us, successMatchesStatus (signinHandler b dbOk us)) ∧
    (∀ dbOk s, successMatchesStatus (getMoviesHandler dbOk s).1) ∧
    (∀ b dbOk s, successMatchesStatus (postMoviesHandler b dbOk s).1) ∧
    (∀ t dbOk s, successMatchesStatus (getMovieHandler t dbOk s).1) ∧
    (∀ t u dbOk s, successMatchesStatus (putMoviesHandler t u dbOk s).1) ∧
    (∀ t dbOk s, successMatchesStatus (deleteMovieHandler t dbOk s).1) := by
  refine ⟨?_, ?_, ?_, ?_, ?_, ?_, ?_⟩
  · intro b dbOk us
    unfold signupHandler
    repeat' split
    all_goals simp [successMatchesStatus]
  · intro b dbOk us
    unfold signinHandler
    repeat' split
    all_goals simp [successMatchesStatus]
  · intro dbOk s
    unfold getMoviesHandler
    split
    all_goals simp [successMatchesStatus]
  · intro b dbOk s
    unfold postMoviesHandler
    split
    all_goals simp [successMatchesStatus]
  · intro t dbOk s
    unfold getMovieHandler
    repeat' split
    all_goals simp [successMatchesStatus]
  · intro t u dbOk s
    unfold putMoviesHandler
    cases hv : validatePut u with
    | some r =>
      obtain ⟨h400, hsf⟩ := validatePut_shape u r hv
      simp [successMatchesStatus, h400, hsf]
    | none =>
      by_cases hdb : dbOk
      · rcases h2 : findOneAndUpdate s t u with ⟨o, s2⟩
        cases o
        all_goals simp [successMatchesStatus, hdb, h2]
      · simp [successMatchesStatus, hdb]
  · intro t dbOk s
    unfold deleteMovieHandler
    split
    all_goals simp [successMatchesStatus]

end MovieAPI
